import Mathlib

/-!
Verification of the conversation state machine in
src/frontend/chatbot-ui/src/Chat.jsx (the Chat component).

The component keeps three pieces of React state: the ordered message list
(messages), the current draft (input) and the busy flag (loading).  The
only mutation protocol is the async function sendMessage, which

  1. returns at once when the trimmed draft is empty or loading is set;
  2. otherwise appends a user-role message with the untrimmed draft text,
     clears the draft, sets loading, and issues a POST whose sole payload
     is the submitted text;
  3. when the fetch promise settles: on a body that decodes as JSON it
     appends a bot-role message whose text is the reply field of the body
     (the HTTP status is never inspected); on a rejected fetch or a body
     that fails to decode it appends the fixed fallback message; in all
     cases it finally clears loading.

We embed this shallowly: the synchronous prefix of sendMessage (up to the
fetch call) is sendMessageStart, the continuation that runs when the
request settles is sendMessageSettle, and the environment's behaviour for
one request is a value of FetchResult.  A small labelled transition
system (Step / Reachable) models the interleaving of draft edits, submits
and settlements that the browser event loop can produce, tracking the
multiset of in-flight requests explicitly so that the single-outstanding-
request invariant is a real statement and not a definitional triviality.
-/

/-- Role of a chat message, the role field of the objects pushed onto
messages in Chat.jsx (either the literal "user" or the literal "bot"). -/
inductive Role : Type where
  | user : Role
  | bot : Role
  deriving DecidableEq, Repr

/-- JavaScript values that can end up in the text field of a message.
data.reply is undefined when the decoded JSON body has no reply field, and
Chat.jsx stores it without validation, so text is not always a string. -/
inductive JsValue : Type where
  | str : String → JsValue
  | undef : JsValue
  deriving DecidableEq, Repr

/-- A chat message as pushed onto the messages array in Chat.jsx:
an object with a role and a text field. -/
structure Message : Type where
  role : Role
  text : JsValue
  deriving DecidableEq, Repr

/-- The React state of the Chat component: the messages array, the input
string (the draft) and the loading flag (the busy flag). -/
structure ChatState : Type where
  messages : List Message
  input : String
  loading : Bool
  deriving DecidableEq, Repr

/-- Outcome of res.json() on a settled fetch: the body either fails to
decode (the promise rejects and control jumps to the catch block) or
decodes to an object whose reply field holds the given value, undef
standing for an absent reply field. -/
inductive BodyParse : Type where
  | malformed : BodyParse
  | json : JsValue → BodyParse
  deriving DecidableEq, Repr

/-- Behaviour of the fetch call for one submission: the promise either
rejects (connection failure, service unreachable) or resolves with a
response whose ok flag reflects the HTTP status class and whose body
parses as described by BodyParse.  Chat.jsx never reads the ok flag. -/
inductive FetchResult : Type where
  | reject : FetchResult
  | resolve : Bool → BodyParse → FetchResult
  deriving DecidableEq, Repr

/-- The fixed fallback text appended by the catch block of sendMessage. -/
def fallbackText : String := "Server not reachable 😕"

/-- JavaScript String.prototype.trim as used in the guard of sendMessage:
removes leading and trailing whitespace characters. -/
def trimJs (s : String) : String :=
  String.mk (((s.data.dropWhile Char.isWhitespace).reverse.dropWhile
    Char.isWhitespace).reverse)

/-- The synchronous prefix of sendMessage (Chat.jsx lines 17-29): the
guard returns at once when the trimmed input is empty or loading is set;
otherwise the user message is appended, the input cleared, loading set,
and the fetch is issued with the captured userText as payload.  The
second component is the payload of the request issued, none when the
guard fired and no request was made. -/
def sendMessageStart (st : ChatState) : ChatState × Option String :=
  if (trimJs st.input).isEmpty || st.loading then
    (st, none)
  else
    ({ messages := st.messages ++ [{ role := Role.user, text := JsValue.str st.input }],
       input := "",
       loading := true },
     some st.input)

/-- The continuation of sendMessage that runs when the fetch settles
(Chat.jsx lines 31-37): if the response body decodes, a bot message with
the decoded reply field is appended (the HTTP status is not inspected);
if the fetch rejected or the body failed to decode, the catch block
appends the fallback message; the finally block clears loading. -/
def sendMessageSettle (st : ChatState) (r : FetchResult) : ChatState :=
  let st1 : ChatState :=
    match r with
    | FetchResult.resolve _ (BodyParse.json reply) =>
        { st with messages := st.messages ++ [{ role := Role.bot, text := reply }] }
    | FetchResult.resolve _ BodyParse.malformed =>
        { st with messages :=
            st.messages ++ [{ role := Role.bot, text := JsValue.str fallbackText }] }
    | FetchResult.reject =>
        { st with messages :=
            st.messages ++ [{ role := Role.bot, text := JsValue.str fallbackText }] }
  { st1 with loading := false }

/-- A whole run of sendMessage with no interleaved events: the start
phase, then, when a request was issued, the settle phase under the given
fetch behaviour. -/
def sendMessage (st : ChatState) (r : FetchResult) : ChatState :=
  match sendMessageStart st with
  | (st1, none) => st1
  | (st1, some _) => sendMessageSettle st1 r

/-- State of the whole component plus its environment: the React state
and the list of payloads of requests currently in flight.  The code
itself never stores this list; we track it so that the at-most-one-
outstanding-request invariant is a provable property rather than a
modelling assumption. -/
structure SysState : Type where
  chat : ChatState
  pending : List String
  deriving DecidableEq, Repr

/-- The initial state: empty conversation, empty draft, not loading, no
request in flight (useState([]), useState(""), useState(false)). -/
def initState : SysState :=
  { chat := { messages := [], input := "", loading := false }, pending := [] }

/-- Effect of invoking sendMessage on the system state: the synchronous
prefix runs, and when it issues a request that request joins the
in-flight list. -/
def submitStep (s : SysState) : SysState :=
  match sendMessageStart s.chat with
  | (c1, none) => { chat := c1, pending := s.pending }
  | (c1, some t) => { chat := c1, pending := s.pending ++ [t] }

/-- Events the browser event loop can deliver: editing the draft (the
textarea onChange handler calls setInput), invoking sendMessage (button
click or Enter), and the settlement of an in-flight request, which runs
the continuation of sendMessage. -/
inductive Step : SysState → SysState → Prop where
  | edit (c : ChatState) (p : List String) (s : String) :
      Step { chat := c, pending := p } { chat := { c with input := s }, pending := p }
  | submit (s : SysState) : Step s (submitStep s)
  | settle (c : ChatState) (t : String) (p : List String) (r : FetchResult) :
      Step { chat := c, pending := t :: p } { chat := sendMessageSettle c r, pending := p }

/-- States reachable from the initial state by event-loop steps. -/
inductive Reachable : SysState → Prop where
  | init : Reachable initState
  | step {s s' : SysState} : Reachable s → Step s s' → Reachable s'

/-- C3: when the trimmed draft is empty or the busy flag is set, invoking
sendMessage is a no-op: the React state is unchanged (messages, draft and
busy flag alike), no request is issued, and no error is raised. -/
theorem submit_noop_when_empty_or_busy (st : ChatState)
    (h : (trimJs st.input).isEmpty || st.loading) :
    sendMessageStart st = (st, none) := by
  unfold sendMessageStart
  simp [h]

/-- Witness for submit_noop_when_empty_or_busy: a whitespace-only draft
while not busy is a no-op. -/
theorem submit_noop_witness :
    sendMessageStart { messages := [], input := "  ", loading := false } =
      ({ messages := [], input := "  ", loading := false }, none) :=
  submit_noop_when_empty_or_busy
    { messages := [], input := "  ", loading := false } (by decide)

/-- C4: with a non-empty trimmed draft and the busy flag clear, the
synchronous prefix of sendMessage appends exactly one user-role message
carrying the draft text, clears the draft, sets the busy flag, and issues
the request with the submitted text as its sole payload; all of this is
fixed before the fetch resolves. -/
theorem submit_start_effects (st : ChatState)
    (h : ((trimJs st.input).isEmpty || st.loading) = false) :
    sendMessageStart st =
      ({ messages := st.messages ++ [{ role := Role.user, text := JsValue.str st.input }],
         input := "",
         loading := true },
       some st.input) := by
  unfold sendMessageStart
  simp [h]

/-- Witness for submit_start_effects at the draft "Hello". -/
theorem submit_start_effects_witness :
    sendMessageStart { messages := [], input := "Hello", loading := false } =
      ({ messages := [{ role := Role.user, text := JsValue.str "Hello" }],
         input := "",
         loading := true },
       some "Hello") :=
  submit_start_effects { messages := [], input := "Hello", loading := false } (by decide)

/-- C1: every submission that settles, whatever the fetch outcome
(rejection, malformed body, or any decoded response), appends exactly one
bot-role message after the optimistically appended user-role message, and
ends with the busy flag clear. -/
theorem submission_settles_one_bot_message (st : ChatState) (r : FetchResult)
    (h : ((trimJs st.input).isEmpty || st.loading) = false) :
    ∃ m : Message, m.role = Role.bot ∧
      (sendMessage st r).messages =
        st.messages ++ [{ role := Role.user, text := JsValue.str st.input }] ++ [m] ∧
      (sendMessage st r).loading = false := by
  cases r with
  | reject =>
    refine ⟨{ role := Role.bot, text := JsValue.str fallbackText }, rfl, ?_, ?_⟩ <;>
      simp [sendMessage, sendMessageStart, sendMessageSettle, h]
  | resolve ok body =>
    cases body with
    | malformed =>
      refine ⟨{ role := Role.bot, text := JsValue.str fallbackText }, rfl, ?_, ?_⟩ <;>
        simp [sendMessage, sendMessageStart, sendMessageSettle, h]
    | json reply =>
      refine ⟨{ role := Role.bot, text := reply }, rfl, ?_, ?_⟩ <;>
        simp [sendMessage, sendMessageStart, sendMessageSettle, h]

/-- Witness for submission_settles_one_bot_message: the draft "Hello"
against an unreachable service. -/
theorem submission_settles_one_bot_message_witness :
    ∃ m : Message, m.role = Role.bot ∧
      (sendMessage { messages := [], input := "Hello", loading := false }
          FetchResult.reject).messages =
        [] ++ [{ role := Role.user, text := JsValue.str "Hello" }] ++ [m] ∧
      (sendMessage { messages := [], input := "Hello", loading := false }
          FetchResult.reject).loading = false :=
  submission_settles_one_bot_message
    { messages := [], input := "Hello", loading := false } FetchResult.reject (by decide)

/-- C5: from the empty conversation with draft "Hello", a submission
answered by the reply "Hi there" ends with exactly the two expected
messages, an empty draft and a clear busy flag; and in general a settled
response carrying a reply field appends exactly one bot-role message
whose text is that reply. -/
theorem success_appends_reply (st : ChatState) (ok : Bool) (reply : String) :
    sendMessage { messages := [], input := "Hello", loading := false }
        (FetchResult.resolve true (BodyParse.json (JsValue.str "Hi there"))) =
      { messages := [{ role := Role.user, text := JsValue.str "Hello" },
                     { role := Role.bot, text := JsValue.str "Hi there" }],
        input := "",
        loading := false } ∧
    (sendMessageSettle st (FetchResult.resolve ok (BodyParse.json (JsValue.str reply)))).messages =
      st.messages ++ [{ role := Role.bot, text := JsValue.str reply }] := by
  constructor
  · decide
  · simp [sendMessageSettle]

/-- C6: a submission that fails with a network or protocol failure (the
fetch rejects, or the body does not decode) appends exactly one bot-role
message with the fixed fallback text; in particular the draft "Hello"
against an unreachable service ends with the user message followed by the
fallback message. -/
theorem failure_appends_fallback (st : ChatState) (r : FetchResult)
    (h : r = FetchResult.reject ∨ ∃ ok, r = FetchResult.resolve ok BodyParse.malformed) :
    (sendMessageSettle st r).messages =
      st.messages ++ [{ role := Role.bot, text := JsValue.str fallbackText }] ∧
    (sendMessageSettle st r).loading = false ∧
    sendMessage { messages := [], input := "Hello", loading := false } FetchResult.reject =
      { messages := [{ role := Role.user, text := JsValue.str "Hello" },
                     { role := Role.bot, text := JsValue.str fallbackText }],
        input := "",
        loading := false } := by
  refine ⟨?_, ?_, by decide⟩ <;>
    rcases h with h | ⟨ok, h⟩ <;> subst h <;> simp [sendMessageSettle]

/-- Witness for failure_appends_fallback: a rejected fetch. -/
theorem failure_appends_fallback_witness :
    (sendMessageSettle { messages := [], input := "", loading := true }
        FetchResult.reject).messages =
      [] ++ [{ role := Role.bot, text := JsValue.str fallbackText }] ∧
    (sendMessageSettle { messages := [], input := "", loading := true }
        FetchResult.reject).loading = false ∧
    sendMessage { messages := [], input := "Hello", loading := false } FetchResult.reject =
      { messages := [{ role := Role.user, text := JsValue.str "Hello" },
                     { role := Role.bot, text := JsValue.str fallbackText }],
        input := "",
        loading := false } :=
  failure_appends_fallback { messages := [], input := "", loading := true }
    FetchResult.reject (Or.inl rfl)

/-- C2 counterexample: an HTTP response with a non-success status whose
body still decodes as JSON is NOT treated as failure: the appended bot
message carries the decoded reply field, not the fixed fallback string,
because sendMessage never inspects the response status. -/
theorem http_error_status_not_fallback :
    (sendMessageSettle { messages := [], input := "", loading := true }
        (FetchResult.resolve false (BodyParse.json (JsValue.str "ok")))).messages =
      [{ role := Role.bot, text := JsValue.str "ok" }] ∧
    JsValue.str "ok" ≠ JsValue.str fallbackText := by
  exact ⟨by decide, by decide⟩

/-- C2 amended: a connection failure and a malformed (non-decodable) body
are treated uniformly as failure, appending the fixed fallback string;
but a response whose body decodes as JSON follows the success path
whatever its HTTP status, appending the decoded reply field instead. -/
theorem settle_failure_uniformity (st : ChatState) (r : FetchResult) :
    (sendMessageSettle st r).messages = st.messages ++
      [{ role := Role.bot,
         text := match r with
                 | FetchResult.resolve _ (BodyParse.json reply) => reply
                 | _ => JsValue.str fallbackText }] := by
  cases r with
  | reject => simp [sendMessageSettle]
  | resolve ok body => cases body <;> simp [sendMessageSettle]

/-- C8: the draft is cleared exactly when a submission begins and never
when it completes: the settle phase leaves the draft untouched whatever
its current contents (so edits made while busy survive settlement), the
start phase clears it exactly when the submission goes through, and
editing the draft remains a legal event-loop step while a request is in
flight. -/
theorem draft_cleared_only_at_start (st c : ChatState) (r : FetchResult)
    (t d : String) :
    (sendMessageSettle st r).input = st.input ∧
    (sendMessageStart c).1.input =
      (if ((trimJs c.input).isEmpty || c.loading) = true then c.input else "") ∧
    Step { chat := st, pending := [t] }
      { chat := { st with input := d }, pending := [t] } := by
  refine ⟨?_, ?_, Step.edit st [t] d⟩
  · cases r with
    | reject => simp [sendMessageSettle]
    | resolve ok body => cases body <;> simp [sendMessageSettle]
  · by_cases h : ((trimJs c.input).isEmpty || c.loading) = true <;>
      simp [sendMessageStart, h]

/-- C10: the success path performs no validation of the reply field: any
response whose body decodes as JSON, whatever its status, appends exactly
one bot message whose text is the reply field value, which is the
undefined value when the field is absent. -/
theorem success_path_reply_unvalidated (st : ChatState) (ok : Bool) (reply : JsValue) :
    (sendMessageSettle st (FetchResult.resolve ok (BodyParse.json reply))).messages =
      st.messages ++ [{ role := Role.bot, text := reply }] ∧
    (sendMessageSettle st (FetchResult.resolve false (BodyParse.json JsValue.undef))).messages =
      st.messages ++ [{ role := Role.bot, text := JsValue.undef }] := by
  constructor <;> simp [sendMessageSettle]

/-- Invoking sendMessage while the loading flag is set leaves the state
unchanged and issues no request: the guard returns immediately. -/
theorem sendMessageStart_of_loading (c : ChatState) (hl : c.loading = true) :
    sendMessageStart c = (c, none) := by
  simp [sendMessageStart, hl]

/-- C9: every event-loop step only ever appends to the message list: no
step removes, reorders or modifies a message already present. -/
theorem messages_append_only (s s' : SysState) (h : Step s s') :
    ∃ t, s'.chat.messages = s.chat.messages ++ t := by
  cases h with
  | edit c p str => exact ⟨[], by simp⟩
  | submit =>
    by_cases he : (trimJs s.chat.input).isEmpty = true
    · exact ⟨[], by simp [submitStep, sendMessageStart, he]⟩
    · by_cases hl : s.chat.loading = true
      · exact ⟨[], by simp [submitStep, sendMessageStart, hl]⟩
      · exact ⟨[{ role := Role.user, text := JsValue.str s.chat.input }],
          by simp [submitStep, sendMessageStart, he, hl]⟩
  | settle c t p r =>
    cases r with
    | reject =>
      exact ⟨[{ role := Role.bot, text := JsValue.str fallbackText }],
        by simp [sendMessageSettle]⟩
    | resolve ok body =>
      cases body with
      | malformed =>
        exact ⟨[{ role := Role.bot, text := JsValue.str fallbackText }],
          by simp [sendMessageSettle]⟩
      | json reply =>
        exact ⟨[{ role := Role.bot, text := reply }], by simp [sendMessageSettle]⟩

/-- Witness for messages_append_only: submitting the draft "A" from the
empty conversation appends to the empty message list. -/
theorem messages_append_only_witness :
    ∃ t, (submitStep { chat := { messages := [], input := "A", loading := false },
                       pending := [] }).chat.messages = ([] : List Message) ++ t :=
  messages_append_only _ _
    (Step.submit { chat := { messages := [], input := "A", loading := false },
                   pending := [] })

/-- C7: in every reachable state there is at most one outstanding
request: the number of in-flight requests is one exactly when the busy
flag is set and zero otherwise, and while the busy flag is set any
further invocation of sendMessage is ignored (no state change and no
second request). -/
theorem at_most_one_outstanding (s : SysState) (h : Reachable s) :
    s.pending.length = (if s.chat.loading = true then 1 else 0) ∧
    (s.chat.loading = true → sendMessageStart s.chat = (s.chat, none)) := by
  refine ⟨?_, fun hl => sendMessageStart_of_loading s.chat hl⟩
  induction h with
  | init => rfl
  | step hr hs ih =>
    rename_i s1 s2
    cases hs with
    | edit c p str => simpa using ih
    | submit =>
      by_cases hl : s1.chat.loading = true
      · rw [show submitStep s1 = s1 by
          simp [submitStep, sendMessageStart_of_loading s1.chat hl]]
        exact ih
      · by_cases he : (trimJs s1.chat.input).isEmpty = true
        · rw [show submitStep s1 = s1 by simp [submitStep, sendMessageStart, he]]
          exact ih
        · have hp : s1.pending.length = 0 := by simpa [hl] using ih
          simp [submitStep, sendMessageStart, he, hl, hp]
    | settle c t p r =>
      have hloading : (sendMessageSettle c r).loading = false := by
        cases r with
        | reject => rfl
        | resolve ok body => cases body <;> rfl
      have hp : p.length = 0 := by
        by_cases hl : c.loading = true
        · rw [hl] at ih
          simp at ih
          simp [ih]
        · simp [hl] at ih
      simp [hloading, hp]

/-- Witness for at_most_one_outstanding: the reachable state in which "A"
was submitted and "B" has since been typed into the draft has exactly the
one request "A" in flight. -/
theorem at_most_one_outstanding_witness :
    ({ chat := { messages := [{ role := Role.user, text := JsValue.str "A" }],
                 input := "B", loading := true },
       pending := ["A"] } : SysState).pending.length =
      (if ({ chat := { messages := [{ role := Role.user, text := JsValue.str "A" }],
                       input := "B", loading := true },
             pending := ["A"] } : SysState).chat.loading = true then 1 else 0) ∧
    (({ chat := { messages := [{ role := Role.user, text := JsValue.str "A" }],
                  input := "B", loading := true },
        pending := ["A"] } : SysState).chat.loading = true →
      sendMessageStart { messages := [{ role := Role.user, text := JsValue.str "A" }],
                         input := "B", loading := true } =
        ({ messages := [{ role := Role.user, text := JsValue.str "A" }],
           input := "B", loading := true }, none)) :=
  at_most_one_outstanding _
    (Reachable.step
      (Reachable.step
        (Reachable.step Reachable.init
          (Step.edit { messages := [], input := "", loading := false } [] "A"))
        (Step.submit { chat := { messages := [], input := "A", loading := false },
                       pending := [] }))
      (Step.edit { messages := [{ role := Role.user, text := JsValue.str "A" }],
                   input := "", loading := true } ["A"] "B"))
